import Mathlib

/-!
# Verification of the deepseek-messenger backend core

Shallow embedding of the message-processing pipeline of the
`deepseek-messenger` backend: the SQLite-backed conversation store
(`backend/storage/db.py`), the DeepSeek completion client with tenacity
retry (`backend/core/deepseek_client.py`), the orchestrator
(`backend/core/chat_manager.py`) and the request validation models
(`backend/storage/models.py`).

Conventions of the embedding:
* SQLite rows become Lean structures; `datetime.now()` timestamps are
  naturals supplied by the caller (an external clock).
* The SQLite connection is modelled as a value of type `DB`; an operation
  that commits returns the new `DB`, a failing operation returns an error
  and the caller keeps the old `DB` (SQLite rolls an uncommitted
  transaction back when the connection closes).
* External failure (storage unavailable, upstream API outcome) is an
  oracle argument; the code's control flow around it is translated
  faithfully.
* The repository never executes `PRAGMA foreign_keys = ON`; SQLite
  therefore does not enforce the declared `FOREIGN KEY ... ON DELETE
  CASCADE` on `messages.chat_id`, so `DELETE FROM chats` removes no
  message row and `INSERT INTO messages` never checks that the chat
  exists.  The embedding reflects that actual behaviour.
* `DeepSeekClient` constructs the synchronous `openai.OpenAI` client yet
  `chat_completion` does `await self.client.chat.completions.create(...)`.
  A `ChatCompletion` object is not awaitable, so when the provider call
  succeeds the `await` raises `TypeError`; it is re-raised by the
  `except Exception` block and, not being `APITimeoutError` or
  `APIConnectionError`, is never retried by tenacity.  The embedding
  maps a successful provider attempt to that error: the real
  `chat_completion` can never return generated text.
-/

/-- A row of the `messages` table (`db.py`, `init_db`):
`id INTEGER PRIMARY KEY AUTOINCREMENT, chat_id, role, content, timestamp`. -/
structure MsgRow where
  id : Nat
  chat_id : Nat
  role : String
  content : String
  timestamp : Nat
  deriving Repr, DecidableEq

/-- A row of the `chats` table (`db.py`, `init_db`):
`id INTEGER PRIMARY KEY AUTOINCREMENT, user_id, title, created_at, updated_at`. -/
structure ChatRow where
  id : Nat
  user_id : Option String
  title : String
  created_at : Nat
  updated_at : Nat
  deriving Repr, DecidableEq

/-- The persistent state of the SQLite file: both tables plus the
AUTOINCREMENT counters. -/
structure DB where
  chats : List ChatRow
  messages : List MsgRow
  nextChatId : Nat
  nextMsgId : Nat
  deriving Repr, DecidableEq

/-- The order in which SQLite's `idx_messages_timestamp` index stores
message rows: by `timestamp`, ties broken by rowid (`id`).  `ORDER BY
timestamp ASC` scans this index forward, `ORDER BY timestamp DESC` scans
it backward, so DESC order is exactly the reverse of ASC order. -/
def msgLE (a b : MsgRow) : Prop :=
  a.timestamp < b.timestamp ∨ (a.timestamp = b.timestamp ∧ a.id ≤ b.id)

instance : DecidableRel msgLE := by
  intro a b
  unfold msgLE
  infer_instance

instance : IsTotal MsgRow msgLE := by
  constructor
  intro a b
  rcases Nat.lt_trichotomy a.timestamp b.timestamp with h | h | h
  · exact Or.inl (Or.inl h)
  · rcases Nat.le_total a.id b.id with h' | h'
    · exact Or.inl (Or.inr ⟨h, h'⟩)
    · exact Or.inr (Or.inr ⟨h.symm, h'⟩)
  · exact Or.inr (Or.inl h)

instance : IsTrans MsgRow msgLE := by
  constructor
  intro a b c hab hbc
  rcases hab with h1 | ⟨h1, h1'⟩
  · rcases hbc with h2 | ⟨h2, _⟩
    · exact Or.inl (h1.trans h2)
    · exact Or.inl (h2 ▸ h1)
  · rcases hbc with h2 | ⟨h2, h2'⟩
    · exact Or.inl (h1 ▸ h2)
    · exact Or.inr ⟨h1.trans h2, h1'.trans h2'⟩

/-- `SELECT ... FROM messages WHERE chat_id = ? ORDER BY timestamp ASC`
(`Database.get_chat`): the chat's messages in ascending index order. -/
def chatMessagesAsc (db : DB) (chat_id : Nat) : List MsgRow :=
  List.insertionSort msgLE (db.messages.filter (fun m => m.chat_id == chat_id))

/-- `Database.get_last_n_messages`: `ORDER BY timestamp DESC LIMIT n`,
then `reversed(rows)` back to chronological order.  The DESC scan is the
reverse of the ASC scan of the same index. -/
def getLastNMessages (db : DB) (chat_id : Nat) (n : Nat) : List MsgRow :=
  (((chatMessagesAsc db chat_id).reverse).take n).reverse

/-- Failure classes of the embedding.  `storage` stands for the sqlite3
exceptions a failing connection raises; `transient`, `permanent` and
`retryExhausted` model `openai.APITimeoutError`/`APIConnectionError`,
other `openai.APIError`s and `tenacity.RetryError` respectively;
`typeError` models Python's `TypeError`, raised when `chat_completion`
awaits the non-awaitable return value of the synchronous client. -/
inductive Exc where
  | storage (msg : String)
  | transient (msg : String)
  | permanent (msg : String)
  | retryExhausted (last : String)
  | typeError (msg : String)
  deriving Repr, DecidableEq

/-- `str(e)` on the modelled exceptions, as used by
`ChatManager.process_message`'s `except` block.  `str` of a
`tenacity.RetryError` prints the wrapped future, not the original
message. -/
def errString : Exc → String
  | .storage m => m
  | .transient m => m
  | .permanent m => m
  | .retryExhausted _ => "RetryError[<Future>]"
  | .typeError m => m

/-- The `TypeError` raised by `await` on the `ChatCompletion` object the
synchronous `openai.OpenAI` client returns. -/
def awaitTypeError : Exc :=
  .typeError "object ChatCompletion can not be used in await expression"

/-- `Database.create_chat`: `INSERT INTO chats (user_id, title,
created_at, updated_at) VALUES (?, ?, ?, ?)` with both timestamps set to
the same `datetime.now()`, returning `cursor.lastrowid`. -/
def createChatTx (db : DB) (now : Nat) (user_id : Option String) (title : String) :
    Nat × DB :=
  (db.nextChatId,
   { db with
      chats := db.chats ++ [⟨db.nextChatId, user_id, title, now, now⟩]
      nextChatId := db.nextChatId + 1 })

/-- `Database.create_chat` with its storage connection: when the
connection fails the transaction never commits and the caller keeps the
old state. -/
def createChat (avail : Bool) (db : DB) (now : Nat) (user_id : Option String)
    (title : String) : Except Exc (Nat × DB) :=
  if avail then .ok (createChatTx db now user_id title) else .error (.storage "db unavailable")

/-- The committed effect of `Database.save_message`: one transaction that
(1) `INSERT INTO messages (chat_id, role, content, timestamp)` and
(2) `UPDATE chats SET updated_at = ? WHERE id = ?`, both with the same
`datetime.now()`, then a single `commit`.  No chat-existence check and no
foreign-key enforcement: the insert succeeds even when no chat row has
this id (the `UPDATE` then touches no row). -/
def saveMessageTx (db : DB) (now : Nat) (chat_id : Nat) (role content : String) :
    Nat × DB :=
  (db.nextMsgId,
   { db with
      messages := db.messages ++ [⟨db.nextMsgId, chat_id, role, content, now⟩]
      chats := db.chats.map (fun c => if c.id == chat_id then { c with updated_at := now } else c)
      nextMsgId := db.nextMsgId + 1 })

/-- `Database.save_message` with its storage connection: either the whole
transaction commits or the connection fails, the uncommitted transaction
is rolled back when the `async with` block closes it, and the caller
keeps the old state — never one of the two writes without the other. -/
def saveMessage (avail : Bool) (db : DB) (now : Nat) (chat_id : Nat)
    (role content : String) : Except Exc (Nat × DB) :=
  if avail then .ok (saveMessageTx db now chat_id role content) else .error (.storage "db unavailable")

/-- `Database.delete_chat`: `DELETE FROM chats WHERE id = ?`, returning
`cursor.rowcount > 0`.  `PRAGMA foreign_keys` is never enabled anywhere
in the repository, so SQLite does not act on the declared `ON DELETE
CASCADE` and the chat's message rows are left in place. -/
def deleteChat (db : DB) (chat_id : Nat) : Bool × DB :=
  let remaining := db.chats.filter (fun c => ¬ c.id == chat_id)
  (remaining.length < db.chats.length, { db with chats := remaining })

/-- `SELECT id, user_id, title, created_at, updated_at FROM chats WHERE
id = ?` followed by `fetchone` (`Database.get_chat`). -/
def findChat (db : DB) (chat_id : Nat) : Option ChatRow :=
  db.chats.find? (fun c => c.id == chat_id)

/-- `Database.get_chat`: `None` when no chat row matches, otherwise the
chat row paired with its messages ordered ascending by timestamp. -/
def getChat (db : DB) (chat_id : Nat) : Option (ChatRow × List MsgRow) :=
  match findChat db chat_id with
  | none => none
  | some c => some (c, chatMessagesAsc db chat_id)

/-- The `updated_at` column of the chat row with the given id, when one
exists. -/
def chatUpdatedAt (db : DB) (chat_id : Nat) : Option Nat :=
  (findChat db chat_id).map (fun c => c.updated_at)

/-- One summary row of `Database.get_chats_list`: the chat columns plus
the derived `COUNT(m.id) AS message_count` of the `LEFT JOIN`. -/
structure ChatSummary where
  id : Nat
  user_id : Option String
  title : String
  created_at : Nat
  updated_at : Nat
  message_count : Nat
  deriving Repr, DecidableEq

/-- Python truthiness of `user_id` as tested by `if user_id:` in
`Database.get_chats_list`: `None` and the empty string are both falsy. -/
def pyTruthy : Option String → Bool
  | none => false
  | some s => !s.isEmpty

/-- The order of the `idx_chats_updated` index on `chats(updated_at)`:
by `updated_at`, ties broken by rowid; `ORDER BY c.updated_at DESC`
scans it backward. -/
def chatLE (a b : ChatRow) : Prop :=
  a.updated_at < b.updated_at ∨ (a.updated_at = b.updated_at ∧ a.id ≤ b.id)

instance : DecidableRel chatLE := by
  intro a b
  unfold chatLE
  infer_instance

/-- `Database.get_chats_list`: `LEFT JOIN` message counts grouped by
chat, `WHERE c.user_id = ?` added only when `user_id` is truthy,
`ORDER BY c.updated_at DESC LIMIT ? OFFSET ?`. -/
def getChatsList (db : DB) (limit offset : Nat) (user_id : Option String) :
    List ChatSummary :=
  let filtered :=
    if pyTruthy user_id then db.chats.filter (fun c => c.user_id == user_id) else db.chats
  let ordered := (List.insertionSort chatLE filtered).reverse
  let summaries := ordered.map (fun c =>
    ChatSummary.mk c.id c.user_id c.title c.created_at c.updated_at
      ((db.messages.filter (fun m => m.chat_id == c.id)).length))
  (summaries.drop offset).take limit

/-- A `{"role": ..., "content": ...}` dict sent to the completion API. -/
structure ApiMessage where
  role : String
  content : String
  deriving Repr, DecidableEq

/-- `DeepSeekClient.convert_to_api_messages`. -/
def convertToApiMessages (msgs : List MsgRow) : List ApiMessage :=
  msgs.map (fun m => ApiMessage.mk m.role m.content)

/-- The `api_messages` list built inside `DeepSeekClient.chat_completion`:
the system prompt is prepended as a distinguished leading entry only when
`if system_prompt:` is truthy — `None` and the empty string are both
skipped. -/
def buildApiMessages (system_prompt : Option String) (messages : List ApiMessage) :
    List ApiMessage :=
  match system_prompt with
  | some sp => if sp.isEmpty then messages else ApiMessage.mk "system" sp :: messages
  | none => messages

/-- What one attempt of the upstream `chat.completions.create` call can
yield: a `ChatCompletion` carrying generated text, a retryable exception
(`openai.APITimeoutError` or `openai.APIConnectionError`) or any other,
non-retryable exception. -/
inductive UpstreamOutcome where
  | success (text : String)
  | transientErr (msg : String)
  | permanentErr (msg : String)
  deriving Repr, DecidableEq

/-- `tenacity.wait_exponential(multiplier=1, min=2, max=10)` after the
failed attempt `attempt`: tenacity computes
`multiplier * exp_base ** (attempt_number - 1)` and clamps it into
`[min, max]`, i.e. `max(2, min(2 ** (attempt - 1), 10))` — delays
2, 2, 4, 8, 10, 10, … for attempts 1, 2, 3, 4, 5, 6, …. -/
def waitExponential (attempt : Nat) : Nat :=
  max 2 (min (2 ^ (attempt - 1)) 10)

/-- The tenacity retry loop around one `chat_completion` body:
`stop=stop_after_attempt(3)`,
`retry=retry_if_exception_type((APITimeoutError, APIConnectionError))`,
default `reraise=False` so that exhausting the attempts raises
`tenacity.RetryError` wrapping the last attempt rather than re-raising
the transient exception itself.  A successful provider attempt never
produces text: the `await` on the synchronous client's `ChatCompletion`
raises `TypeError`, which the retry predicate does not match, so it
propagates at once.  Returns (outcome, number of the last attempt
executed, list of backoff delays slept).  `fuel` only bounds the
recursion; it is set so it never runs out. -/
def runAttempts (attemptOutcome : Nat → UpstreamOutcome) :
    Nat → Nat → Except Exc String × Nat × List Nat
  | 0, attempt => (.error (.retryExhausted ""), attempt, [])
  | fuel + 1, attempt =>
    match attemptOutcome attempt with
    | .success _ => (.error awaitTypeError, attempt, [])
    | .permanentErr m => (.error (.permanent m), attempt, [])
    | .transientErr m =>
      if 3 ≤ attempt then (.error (.retryExhausted m), attempt, [])
      else
        let r := runAttempts attemptOutcome fuel (attempt + 1)
        (r.1, r.2.1, waitExponential attempt :: r.2.2)

/-- `DeepSeekClient.chat_completion`: builds `api_messages` (system
prompt first when given) and performs the upstream call under the
tenacity policy above.  The network's response to each attempt is the
oracle `oracle payload temperature attempt`. -/
def chatCompletion (oracle : List ApiMessage → Rat → Nat → UpstreamOutcome)
    (messages : List ApiMessage) (temperature : Rat)
    (system_prompt : Option String) : Except Exc String × Nat × List Nat :=
  runAttempts (oracle (buildApiMessages system_prompt messages) temperature) 3 1

/-- `DeepSeekClient.health_check`: issues one minimal completion request
(`max_tokens=5`); `outcome` is either any raised exception or
`bool(response and response.choices)`.  The `try/except Exception`
swallows every failure into `False`. -/
def deepseekHealthCheck (outcome : Except Exc Bool) : Bool :=
  match outcome with
  | .ok hasChoices => hasChoices
  | .error _ => false

/-- The dict returned by `ChatManager.health_check`. -/
structure HealthStatus where
  database : String
  deepseek_api : String
  deriving Repr, DecidableEq

/-- `ChatManager.health_check`: the database probe (`init_db`) and the
DeepSeek probe sit in two separate `try/except` blocks, so each status
is computed from its own outcome alone.  (`deepseekHealthCheck` is total,
so the second `except` branch is unreachable.) -/
def managerHealthCheck (dbInit : Except Exc Unit) (api : Except Exc Bool) :
    HealthStatus :=
  { database := match dbInit with | .ok _ => "ok" | .error _ => "error"
    deepseek_api := if deepseekHealthCheck api then "ok" else "error" }

/-- The title given to an implicitly created chat
(`ChatManager.process_message`, step 1):
`message[:50] + "..." if len(message) > 50 else message`. -/
def truncTitle (message : String) : String :=
  if message.length > 50 then message.take 50 ++ "..." else message

/-- The environment one `process_message` call runs against: whether each
storage operation's connection is available, and the upstream network
oracle. -/
structure Env where
  createOk : Bool
  saveUserOk : Bool
  ctxOk : Bool
  oracle : List ApiMessage → Rat → Nat → UpstreamOutcome
  saveAssistantOk : Bool

/-- The dict `ChatManager.process_message` returns: either
`{"chat_id", "message", "success": True}` or
`{"chat_id", "message": None, "success": False, "error": str(e)}`. -/
inductive PMResult where
  | success (chat_id : Nat) (message : MsgRow)
  | failure (chat_id : Option Nat) (error : String)
  deriving Repr, DecidableEq

/-- `ChatManager.process_message`.  The whole body sits in one
`try/except Exception`, so every outcome is a returned dict, never an
escaping exception.  `t0, t1, t2, t3` are the successive `datetime.now()`
readings (chat creation, user save, assistant save, and the fresh
timestamp of the `Message` constructed for the response).  On failure the
`except` block reads the local `chat_id`, which is still `None` exactly
when no id was given and creation itself raised. -/
def processMessage (env : Env) (t0 t1 t2 t3 : Nat) (db : DB) (message : String)
    (chat_id? : Option Nat) (temperature : Rat) (system_prompt : Option String)
    (user_id : Option String) : PMResult × DB :=
  match (match chat_id? with
         | some c => Except.ok (c, db)
         | none => createChat env.createOk db t0 user_id (truncTitle message)) with
  | .error e => (.failure chat_id? (errString e), db)
  | .ok (cid, db1) =>
    match saveMessage env.saveUserOk db1 t1 cid "user" message with
    | .error e => (.failure (some cid) (errString e), db1)
    | .ok (_userMsgId, db2) =>
      if env.ctxOk then
        let apiMessages := convertToApiMessages (getLastNMessages db2 cid 10)
        match (chatCompletion env.oracle apiMessages temperature system_prompt).1 with
        | .error e => (.failure (some cid) (errString e), db2)
        | .ok aiResponse =>
          match saveMessage env.saveAssistantOk db2 t2 cid "assistant" aiResponse with
          | .error e => (.failure (some cid) (errString e), db2)
          | .ok (assistantMsgId, db3) =>
            (.success cid (MsgRow.mk assistantMsgId cid "assistant" aiResponse t3), db3)
      else (.failure (some cid) (errString (.storage "db unavailable")), db2)

/-- The constraints `ChatRequest` (`storage/models.py`) imposes before
the route handler runs: `message` has `min_length=1, max_length=10000`
and `temperature` has `ge=0.0, le=1.0`. -/
def validChatRequest (message : String) (temperature : Rat) : Prop :=
  1 ≤ message.length ∧ message.length ≤ 10000 ∧ 0 ≤ temperature ∧ temperature ≤ 1

instance (message : String) (temperature : Rat) :
    Decidable (validChatRequest message temperature) := by
  unfold validChatRequest
  infer_instance

/-- The `POST /api/chat` boundary (`api/routes.py` plus pydantic):
a request failing `ChatRequest` validation is rejected with a 422
validation error before the handler — and hence any storage or network
operation — runs; a valid request is handed to `process_message`. -/
def handleChat (env : Env) (t0 t1 t2 t3 : Nat) (db : DB) (message : String)
    (chat_id? : Option Nat) (temperature : Rat) (system_prompt : Option String) :
    Except String PMResult × DB :=
  if validChatRequest message temperature then
    let r := processMessage env t0 t1 t2 t3 db message chat_id? temperature system_prompt none
    (.ok r.1, r.2)
  else
    (.error "ValidationError", db)

/-- A small concrete store used to evaluate the theorems on explicit
inputs: one chat (id 1) holding three messages. -/
def exampleDB : DB :=
  { chats := [ChatRow.mk 1 none "t" 1 4]
    messages := [MsgRow.mk 1 1 "user" "a" 2,
                 MsgRow.mk 2 1 "assistant" "b" 3,
                 MsgRow.mk 3 1 "user" "c" 4]
    nextChatId := 2
    nextMsgId := 4 }

/-- An environment where storage is available and the upstream call
succeeds on the first attempt. -/
def exampleEnv : Env :=
  { createOk := true
    saveUserOk := true
    ctxOk := true
    oracle := fun _ _ _ => .success "reply"
    saveAssistantOk := true }

/-- A 10000-character message, at the inclusive validation boundary. -/
def bigMessage : String :=
  String.mk (List.replicate 10000 'a')

/-- C4: for every conversation id and every `n`, `get_last_n_messages`
returns exactly `min n total` messages in ascending-timestamp order, and
the returned sequence is the suffix of the full ascending-by-timestamp
message sequence that `get_chat` returns for that conversation. -/
theorem getLastNMessages_spec (db : DB) (cid n : Nat) :
    (getLastNMessages db cid n).length = min n (chatMessagesAsc db cid).length ∧
    List.Sorted (fun a b : MsgRow => a.timestamp ≤ b.timestamp) (getLastNMessages db cid n) ∧
    getLastNMessages db cid n <:+ chatMessagesAsc db cid ∧
    (∀ c msgs, getChat db cid = some (c, msgs) → getLastNMessages db cid n <:+ msgs) := by
  have key : getLastNMessages db cid n
      = (chatMessagesAsc db cid).drop ((chatMessagesAsc db cid).length - n) := by
    unfold getLastNMessages
    rw [List.reverse_take]
    simp
  have hsorted : List.Sorted msgLE (chatMessagesAsc db cid) :=
    List.sorted_insertionSort msgLE _
  have hsuffix : getLastNMessages db cid n <:+ chatMessagesAsc db cid := by
    rw [key]
    exact List.drop_suffix _ _
  refine ⟨?_, ?_, hsuffix, ?_⟩
  · rw [key]
    simp [List.length_drop]
    omega
  · rw [key]
    have h2 : List.Sorted msgLE
        ((chatMessagesAsc db cid).drop ((chatMessagesAsc db cid).length - n)) :=
      hsorted.sublist (List.drop_sublist _ _)
    apply h2.imp
    intro a b hab
    rcases hab with h1 | ⟨h1, _⟩
    · exact Nat.le_of_lt h1
    · exact Nat.le_of_eq h1
  · intro c msgs hmsgs
    unfold getChat at hmsgs
    cases hfind : findChat db cid with
    | none => rw [hfind] at hmsgs; cases hmsgs
    | some c' =>
      rw [hfind] at hmsgs
      cases hmsgs
      exact hsuffix

/-- C4 witness: on the concrete three-message store, the last two
messages form a suffix of the full ascending history. -/
theorem getLastNMessages_spec_witness :
    getLastNMessages exampleDB 1 2 <:+
      [MsgRow.mk 1 1 "user" "a" 2, MsgRow.mk 2 1 "assistant" "b" 3,
       MsgRow.mk 3 1 "user" "c" 4] := by
  have h := (getLastNMessages_spec exampleDB 1 2).2.2.2
      (ChatRow.mk 1 none "t" 1 4)
      [MsgRow.mk 1 1 "user" "a" 2, MsgRow.mk 2 1 "assistant" "b" 3,
       MsgRow.mk 3 1 "user" "c" 4] (by decide)
  exact h

/-- C10: passing the empty string as the owner filter to
`get_chats_list` behaves exactly like passing no owner at all, because
`if user_id:` treats the empty string as falsy and skips the `WHERE`
clause. -/
theorem getChatsList_empty_owner (db : DB) (limit offset : Nat) :
    getChatsList db limit offset (some "") = getChatsList db limit offset none := rfl

/-- C5 (code bug): on the concrete store, `delete_chat 1` returns `True`
and removes the chat row — `get_chat` then reports not-found and
`get_chats_list` no longer includes it — but every one of the chat's
message rows is still present, because `PRAGMA foreign_keys` is never
enabled and SQLite therefore ignores the declared `ON DELETE CASCADE`. -/
theorem deleteChat_keeps_messages :
    (deleteChat exampleDB 1).1 = true ∧
    getChat (deleteChat exampleDB 1).2 1 = none ∧
    getChatsList (deleteChat exampleDB 1).2 50 0 none = [] ∧
    (deleteChat exampleDB 1).2.messages = exampleDB.messages ∧
    exampleDB.messages ≠ [] := by
  refine ⟨rfl, rfl, rfl, rfl, by decide⟩

/-- C6 counterexample: the store holds no chat with id 77, yet
`save_message` succeeds and inserts the orphaned message row instead of
failing with a not-found error. -/
theorem saveMessage_orphan_counterexample :
    findChat (DB.mk [] [] 1 1) 77 = none ∧
    saveMessage true (DB.mk [] [] 1 1) 5 77 "user" "hi"
      = .ok (1, DB.mk [] [MsgRow.mk 1 77 "user" "hi" 5] 1 2) := by
  exact ⟨rfl, rfl⟩

/-- C6 amended: `save_message` performs no existence check on the
conversation id — called with an id that matches no chat row it still
succeeds, inserting an orphaned message row, and its `UPDATE chats`
touches no row. -/
theorem saveMessage_no_existence_check (db : DB) (now cid : Nat)
    (role content : String) (h : findChat db cid = none) :
    ∃ db', saveMessage true db now cid role content = .ok (db.nextMsgId, db') ∧
      db'.chats = db.chats ∧
      MsgRow.mk db.nextMsgId cid role content now ∈ db'.messages := by
  refine ⟨(saveMessageTx db now cid role content).2, rfl, ?_, ?_⟩
  · unfold findChat at h
    rw [List.find?_eq_none] at h
    show List.map _ db.chats = db.chats
    conv_rhs => rw [← List.map_id db.chats]
    apply List.map_congr_left
    intro c hc
    have := h c hc
    simp only [Bool.not_eq_true] at this
    simp [this]
  · show _ ∈ db.messages ++ [MsgRow.mk db.nextMsgId cid role content now]
    simp

/-- C6 amended witness: on an empty store, saving into nonexistent chat
77 succeeds with an orphan row and unchanged chats table. -/
theorem saveMessage_no_existence_check_witness :
    ∃ db', saveMessage true (DB.mk [] [] 1 1) 5 77 "user" "hi" = .ok (1, db') ∧
      db'.chats = (DB.mk [] [] 1 1 : DB).chats ∧
      MsgRow.mk 1 77 "user" "hi" 5 ∈ db'.messages :=
  saveMessage_no_existence_check (DB.mk [] [] 1 1) 5 77 "user" "hi" rfl

/-- Looking a chat up after the `UPDATE chats SET updated_at = ? WHERE
id = ?` of `save_message`: the found row is the old row with its
`updated_at` replaced. -/
theorem find_touch (l : List ChatRow) (cid now : Nat) :
    (l.map (fun c => if c.id == cid then { c with updated_at := now } else c)).find?
        (fun c => c.id == cid)
      = (l.find? (fun c => c.id == cid)).map (fun c => { c with updated_at := now }) := by
  induction l with
  | nil => rfl
  | cons a l ih =>
    by_cases h : a.id = cid
    · have hfa : (fun c : ChatRow => c.id == cid)
          (if a.id == cid then { a with updated_at := now } else a) = true := by simp [h]
      have hpa : (fun c : ChatRow => c.id == cid) a = true := by simp [h]
      rw [List.map_cons,
        List.find?_cons_of_pos (p := fun c : ChatRow => c.id == cid) _ hfa,
        List.find?_cons_of_pos (p := fun c : ChatRow => c.id == cid) _ hpa]
      simp [h]
    · have hfa : ¬ ((fun c : ChatRow => c.id == cid)
          (if a.id == cid then { a with updated_at := now } else a) = true) := by simp [h]
      have hpa : ¬ ((fun c : ChatRow => c.id == cid) a = true) := by simp [h]
      rw [List.map_cons,
        List.find?_cons_of_neg (p := fun c : ChatRow => c.id == cid) _ hfa,
        List.find?_cons_of_neg (p := fun c : ChatRow => c.id == cid) _ hpa]
      exact ih

/-- C3: `save_message` is one transaction with a single commit — when
the connection is down it returns an error and commits nothing (the
first conjunct; the caller keeps the untouched store), and every
committed outcome shows both effects: the message row is inserted with
timestamp `now`, the owning chat's `updated_at` equals that same `now`
(hence `updated_at ≥` the appended message's timestamp), and, provided
the wall clock did not go backwards, `updated_at` never decreases. -/
theorem saveMessage_atomic_touch (avail : Bool) (db : DB) (now cid : Nat)
    (role content : String) :
    (avail = false →
      saveMessage avail db now cid role content = .error (.storage "db unavailable")) ∧
    (∀ mid db', saveMessage avail db now cid role content = .ok (mid, db') →
      MsgRow.mk mid cid role content now ∈ db'.messages ∧
      ((findChat db cid).isSome → chatUpdatedAt db' cid = some now) ∧
      (∀ u u', chatUpdatedAt db cid = some u → u ≤ now →
        chatUpdatedAt db' cid = some u' → u ≤ u')) := by
  constructor
  · intro h
    simp [saveMessage, h]
  · intro mid db' h
    cases avail with
    | false => simp [saveMessage] at h
    | true =>
      simp only [saveMessage, if_true] at h
      rw [saveMessageTx] at h
      injection h with h'
      injection h' with hmid hdb
      subst hmid
      subst hdb
      have htouch : chatUpdatedAt
          { db with
              messages := db.messages ++ [MsgRow.mk db.nextMsgId cid role content now]
              chats := db.chats.map
                (fun c => if c.id == cid then { c with updated_at := now } else c)
              nextMsgId := db.nextMsgId + 1 } cid
          = (db.chats.find? (fun c => c.id == cid)).map (fun _ => now) := by
        unfold chatUpdatedAt findChat
        simp only [find_touch, Option.map_map]
        rfl
      refine ⟨by simp, ?_, ?_⟩
      · intro hsome
        rw [htouch]
        unfold findChat at hsome
        cases hfind : db.chats.find? (fun c => c.id == cid) with
        | none => rw [hfind] at hsome; cases hsome
        | some c => simp
      · intro u u' hu hle hu'
        rw [htouch] at hu'
        cases hfind : db.chats.find? (fun c => c.id == cid) with
        | none =>
          unfold chatUpdatedAt findChat at hu
          rw [hfind] at hu
          cases hu
        | some c =>
          rw [hfind] at hu'
          simp at hu'
          omega

/-- C3 witness: appending a fourth message at time 9 to the concrete
store's chat 1 bumps its `updated_at` from 4 to 9, never behind the
message's timestamp. -/
theorem saveMessage_atomic_touch_witness :
    MsgRow.mk 4 1 "user" "d" 9 ∈ (saveMessageTx exampleDB 9 1 "user" "d").2.messages ∧
    chatUpdatedAt (saveMessageTx exampleDB 9 1 "user" "d").2 1 = some 9 := by
  have h := (saveMessage_atomic_touch true exampleDB 9 1 "user" "d").2 4
      (saveMessageTx exampleDB 9 1 "user" "d").2 rfl
  exact ⟨h.1, h.2.1 (by decide)⟩

/-- C2 counterexample, refuting the claim as stated at concrete inputs.
When every attempt fails transiently, the error surfaced to the caller
is tenacity's `RetryError` wrapping the last attempt (default
`reraise=False`), not the transient failure itself — `str(e)` no longer
contains the transient message.  When attempts 1 and 2 fail transiently
and attempt 3 succeeds at the provider, no success result is returned:
the `await` on the synchronous client raises `TypeError` after exactly
3 attempts.  And the two backoff delays that occur are 2 and 2, not the
claimed 2 and 4. -/
theorem chatCompletion_exhaustion_counterexample :
    (chatCompletion (fun _ _ _ => .transientErr "conn reset") [] 1 none).1
      = .error (.retryExhausted "conn reset") ∧
    (chatCompletion (fun _ _ _ => .transientErr "conn reset") [] 1 none).1
      ≠ .error (.transient "conn reset") ∧
    errString (.retryExhausted "conn reset") ≠ "conn reset" ∧
    chatCompletion
        (fun _ _ k => if k < 3 then .transientErr "timeout" else .success "reply")
        [] 1 none
      = (.error awaitTypeError, 3, [2, 2]) ∧
    (chatCompletion
        (fun _ _ k => if k < 3 then .transientErr "timeout" else .success "reply")
        [] 1 none).1 ≠ .ok "reply" := by
  refine ⟨rfl, fun hc => Exc.noConfusion (Except.error.inj hc), by decide, rfl,
    fun hc => Except.noConfusion hc⟩

/-- No run of the tenacity loop ever produces generated text: every
provider success dies on the `await` of the synchronous client. -/
theorem runAttempts_never_ok (f : Nat → UpstreamOutcome) (fuel attempt : Nat) :
    ∀ r, (runAttempts f fuel attempt).1 ≠ .ok r := by
  induction fuel generalizing attempt with
  | zero => exact fun r hc => Except.noConfusion hc
  | succ fuel ih =>
    intro r
    simp only [runAttempts]
    cases f attempt with
    | success t => exact fun hc => Except.noConfusion hc
    | permanentErr m => exact fun hc => Except.noConfusion hc
    | transientErr m =>
      by_cases h3 : 3 ≤ attempt
      · simp only [h3, if_true]
        exact fun hc => Except.noConfusion hc
      · simp only [h3, if_false]
        exact ih (attempt + 1) r

/-- C2 amended: `chat_completion` retries only transient failures
(timeout/connection), up to 3 total attempts, with backoff delays
`max(2, min(2^(attempt - 1), 10))` — both delays that occur are 2; a
non-transient failure propagates immediately after 1 attempt with no
retry; when every attempt fails transiently, exactly 3 attempts occur
and a retry-exhaustion error (tenacity `RetryError`) wrapping the last
transient failure is surfaced, not the bare transient exception.  The
success result is never returned: a provider success on attempt `k`
raises `TypeError` at the `await` on the synchronous client — surfaced
immediately, after exactly `k` attempts, since it is not a retryable
exception type; in particular transients on attempts 1 and 2 followed by
a provider success on attempt 3 surface that `TypeError` after exactly
3 attempts. -/
theorem chatCompletion_retry_policy
    (oracle : List ApiMessage → Rat → Nat → UpstreamOutcome)
    (messages : List ApiMessage) (temperature : Rat) (system_prompt : Option String) :
    (∀ m1 m2 t,
      oracle (buildApiMessages system_prompt messages) temperature 1 = .transientErr m1 →
      oracle (buildApiMessages system_prompt messages) temperature 2 = .transientErr m2 →
      oracle (buildApiMessages system_prompt messages) temperature 3 = .success t →
      chatCompletion oracle messages temperature system_prompt
        = (.error awaitTypeError, 3, [2, 2])) ∧
    (∀ m : Nat → String,
      (∀ k, oracle (buildApiMessages system_prompt messages) temperature k
        = .transientErr (m k)) →
      chatCompletion oracle messages temperature system_prompt
        = (.error (.retryExhausted (m 3)), 3, [2, 2])) ∧
    (∀ m, oracle (buildApiMessages system_prompt messages) temperature 1 = .permanentErr m →
      chatCompletion oracle messages temperature system_prompt
        = (.error (.permanent m), 1, [])) ∧
    (∀ t, oracle (buildApiMessages system_prompt messages) temperature 1 = .success t →
      chatCompletion oracle messages temperature system_prompt
        = (.error awaitTypeError, 1, [])) ∧
    (∀ r, (chatCompletion oracle messages temperature system_prompt).1 ≠ .ok r) ∧
    waitExponential 1 = 2 ∧ waitExponential 2 = 2 ∧ waitExponential 3 = 4 ∧
    waitExponential 4 = 8 ∧ (∀ k, waitExponential k ≤ 10) := by
  refine ⟨?_, ?_, ?_, ?_, ?_, rfl, rfl, rfl, rfl, ?_⟩
  · intro m1 m2 t h1 h2 h3
    simp [chatCompletion, runAttempts, h1, h2, h3, waitExponential]
  · intro m hm
    simp [chatCompletion, runAttempts, hm 1, hm 2, hm 3, waitExponential]
  · intro m h1
    simp [chatCompletion, runAttempts, h1]
  · intro t h1
    simp [chatCompletion, runAttempts, h1]
  · exact runAttempts_never_ok _ 3 1
  · intro k
    simp [waitExponential]

/-- C2 amended witness: a client transient on attempts 1 and 2 with a
provider success on attempt 3 surfaces the await `TypeError` after
exactly 3 attempts, with backoff delays 2 and 2. -/
theorem chatCompletion_retry_policy_witness :
    chatCompletion
      (fun _ _ k => if k < 3 then .transientErr "timeout" else .success "reply")
      [] 1 none = (.error awaitTypeError, 3, [2, 2]) :=
  (chatCompletion_retry_policy
      (fun _ _ k => if k < 3 then .transientErr "timeout" else .success "reply")
      [] 1 none).1 "timeout" "timeout" "reply" rfl rfl rfl

/-- C9: the orchestrator's health check computes the storage status and
the completion-API status from their own probes alone (each of the two
sub-checks is insensitive to the other's outcome), the client's health
check maps every raised failure to `false` rather than propagating it,
and with storage reachable and the completion API unreachable the result
is storage ok, completion-API error. -/
theorem healthCheck_independent_and_swallowing
    (dbInit dbInit' : Except Exc Unit) (api api' : Except Exc Bool) :
    (managerHealthCheck dbInit api).database = (managerHealthCheck dbInit api').database ∧
    (managerHealthCheck dbInit api).deepseek_api
      = (managerHealthCheck dbInit' api).deepseek_api ∧
    (∀ e, api = .error e → deepseekHealthCheck api = false) ∧
    (∀ u e, dbInit = .ok u → api = .error e →
      managerHealthCheck dbInit api = HealthStatus.mk "ok" "error") := by
  refine ⟨rfl, rfl, ?_, ?_⟩
  · intro e h
    simp [deepseekHealthCheck, h]
  · intro u e hu he
    simp [managerHealthCheck, deepseekHealthCheck, hu, he]

/-- C9 witness: storage probe succeeds, API probe raises — the result
reports storage ok and completion-API error. -/
theorem healthCheck_independent_and_swallowing_witness :
    managerHealthCheck (.ok ()) (.error (.storage "unreachable"))
      = HealthStatus.mk "ok" "error" :=
  (healthCheck_independent_and_swallowing (.ok ()) (.ok ())
      (.error (.storage "unreachable")) (.error (.storage "unreachable"))).2.2.2
    () (.storage "unreachable") rfl rfl

/-- C8: at the `POST /api/chat` boundary a 10000-character message with
an in-range temperature reaches the pipeline (the limit is
boundary-inclusive), while an empty message, a message of 10001 or more
characters, or a temperature outside `[0, 1]` makes `handleChat` return
a validation error with the store untouched — the pipeline, and with it
every persistence and network operation, never runs. -/
theorem chatRequest_validation_boundary (env : Env) (t0 t1 t2 t3 : Nat) (db : DB)
    (message : String) (chat_id? : Option Nat) (temperature : Rat)
    (system_prompt : Option String) :
    (message.length = 10000 → 0 ≤ temperature → temperature ≤ 1 →
      handleChat env t0 t1 t2 t3 db message chat_id? temperature system_prompt
        = (.ok (processMessage env t0 t1 t2 t3 db message chat_id? temperature
              system_prompt none).1,
           (processMessage env t0 t1 t2 t3 db message chat_id? temperature
              system_prompt none).2)) ∧
    (message.length = 0 →
      handleChat env t0 t1 t2 t3 db message chat_id? temperature system_prompt
        = (.error "ValidationError", db)) ∧
    (10001 ≤ message.length →
      handleChat env t0 t1 t2 t3 db message chat_id? temperature system_prompt
        = (.error "ValidationError", db)) ∧
    (temperature < 0 →
      handleChat env t0 t1 t2 t3 db message chat_id? temperature system_prompt
        = (.error "ValidationError", db)) ∧
    (1 < temperature →
      handleChat env t0 t1 t2 t3 db message chat_id? temperature system_prompt
        = (.error "ValidationError", db)) := by
  refine ⟨?_, ?_, ?_, ?_, ?_⟩
  · intro hlen ht0 ht1
    have hv : validChatRequest message temperature :=
      ⟨by omega, by omega, ht0, ht1⟩
    simp [handleChat, hv]
  · intro hlen
    have hv : ¬ validChatRequest message temperature := by
      rintro ⟨h1, -, -, -⟩
      omega
    simp [handleChat, hv]
  · intro hlen
    have hv : ¬ validChatRequest message temperature := by
      rintro ⟨-, h2, -, -⟩
      omega
    simp [handleChat, hv]
  · intro ht
    have hv : ¬ validChatRequest message temperature := by
      rintro ⟨-, -, h3, -⟩
      exact absurd h3 (not_le.mpr ht)
    simp [handleChat, hv]
  · intro ht
    have hv : ¬ validChatRequest message temperature := by
      rintro ⟨-, -, -, h4⟩
      exact absurd h4 (not_le.mpr ht)
    simp [handleChat, hv]

/-- C8 witness: the 10000-character message is accepted while the empty
message is rejected with the store untouched. -/
theorem chatRequest_validation_boundary_witness :
    handleChat exampleEnv 1 2 3 4 exampleDB bigMessage none 1 none
      = (.ok (processMessage exampleEnv 1 2 3 4 exampleDB bigMessage none 1
            none none).1,
         (processMessage exampleEnv 1 2 3 4 exampleDB bigMessage none 1
            none none).2) ∧
    handleChat exampleEnv 1 2 3 4 exampleDB "" none 1 none
      = (.error "ValidationError", exampleDB) :=
  ⟨(chatRequest_validation_boundary exampleEnv 1 2 3 4 exampleDB bigMessage none 1 none).1
      (by simp only [bigMessage, String.length, List.length_replicate])
      (by norm_num) (by norm_num),
   (chatRequest_validation_boundary exampleEnv 1 2 3 4 exampleDB "" none 1 none).2.1 rfl⟩

/-- Appending a message preserves every chat's identity and title: the
`UPDATE` of `save_message` only rewrites `updated_at`. -/
theorem saveMessageTx_preserves_title (db : DB) (now cid' : Nat)
    (role content : String) (i : Nat) (ttl : String)
    (h : ∃ c ∈ db.chats, c.id = i ∧ c.title = ttl) :
    ∃ c ∈ (saveMessageTx db now cid' role content).2.chats,
      c.id = i ∧ c.title = ttl := by
  obtain ⟨c, hc, hid, httl⟩ := h
  have hidp : (if c.id == cid' then { c with updated_at := now } else c).id = c.id := by
    split <;> rfl
  have httlp : (if c.id == cid' then { c with updated_at := now } else c).title
      = c.title := by
    split <;> rfl
  exact ⟨_, List.mem_map_of_mem _ hc, hidp.trans hid, httlp.trans httl⟩

/-- C7: a `process_message` call with no conversation id creates a chat
titled with the message truncated to 50 characters plus an ellipsis when
truncation occurred, the message itself otherwise; the created row (with
that exact title) is in the resulting store whatever happens downstream,
and "Hello" titles its new conversation "Hello". -/
theorem processMessage_new_chat_title (env : Env) (t0 t1 t2 t3 : Nat) (db : DB)
    (message : String) (temperature : Rat) (system_prompt : Option String)
    (user_id : Option String) (h : env.createOk = true) :
    (∃ c ∈ (processMessage env t0 t1 t2 t3 db message none temperature
        system_prompt user_id).2.chats,
      c.id = db.nextChatId ∧ c.title = truncTitle message) ∧
    (message.length ≤ 50 → truncTitle message = message) ∧
    (50 < message.length → truncTitle message = message.take 50 ++ "...") ∧
    truncTitle "Hello" = "Hello" := by
  refine ⟨?_, ?_, ?_, rfl⟩
  · have h1 : ∃ c ∈ (createChatTx db t0 user_id (truncTitle message)).2.chats,
        c.id = db.nextChatId ∧ c.title = truncTitle message := by
      refine ⟨ChatRow.mk db.nextChatId user_id (truncTitle message) t0 t0, ?_, rfl, rfl⟩
      simp [createChatTx]
    unfold processMessage
    simp only [createChat, h, if_true]
    cases hsu : env.saveUserOk with
    | false => simpa [saveMessage] using h1
    | true =>
      simp only [saveMessage, if_true]
      cases hcx : env.ctxOk with
      | false => simpa using saveMessageTx_preserves_title _ _ _ _ _ _ _ h1
      | true =>
        simp only [if_true]
        cases hcc : (chatCompletion env.oracle
            (convertToApiMessages (getLastNMessages
              (saveMessageTx (createChatTx db t0 user_id (truncTitle message)).2 t1
                (createChatTx db t0 user_id (truncTitle message)).1 "user" message).2
              (createChatTx db t0 user_id (truncTitle message)).1 10))
            temperature system_prompt).1 with
        | error e => simpa [hcc] using saveMessageTx_preserves_title _ _ _ _ _ _ _ h1
        | ok aiResponse =>
          simp only [hcc]
          cases hsa : env.saveAssistantOk with
          | false => simpa using saveMessageTx_preserves_title _ _ _ _ _ _ _ h1
          | true =>
            simpa using saveMessageTx_preserves_title _ _ _ _ _ _ _
              (saveMessageTx_preserves_title _ _ _ _ _ _ _ h1)
  · intro hle
    simp [truncTitle, Nat.not_lt.mpr hle]
  · intro hgt
    simp [truncTitle, hgt]

/-- C7 witness: sending "Hello" with no conversation id against an empty
store creates chat 1 titled "Hello". -/
theorem processMessage_new_chat_title_witness :
    ∃ c ∈ (processMessage exampleEnv 1 2 3 4 (DB.mk [] [] 1 1) "Hello" none 1
        none none).2.chats,
      c.id = 1 ∧ c.title = truncTitle "Hello" :=
  (processMessage_new_chat_title exampleEnv 1 2 3 4 (DB.mk [] [] 1 1) "Hello" 1
      none none rfl).1

/-- C1: `process_message` never lets a failure escape — its body runs
under one `try/except Exception`, so (modelled by the totality of the
embedding) every call returns a result dict.  On success the result
carries the conversation id (the given one, or the newly created one)
and a message matching the persisted assistant row by id, chat, role and
content; on failure it carries the conversation id exactly when one was
established — `None` precisely when no id was given and conversation
creation itself failed — plus an error description; and when the user
turn was persisted, every later failure (context fetch, model call,
assistant save) leaves that user message in the store. -/
theorem processMessage_structured_outcome (env : Env) (t0 t1 t2 t3 : Nat)
    (db : DB) (message : String) (chat_id? : Option Nat) (temperature : Rat)
    (system_prompt : Option String) (user_id : Option String) :
    (∀ cid m db',
      processMessage env t0 t1 t2 t3 db message chat_id? temperature
          system_prompt user_id = (.success cid m, db') →
      m.role = "assistant" ∧ m.chat_id = cid ∧
      MsgRow.mk m.id cid "assistant" m.content t2 ∈ db'.messages ∧
      (∀ c, chat_id? = some c → cid = c) ∧
      (chat_id? = none → cid = db.nextChatId)) ∧
    (∀ c? e db',
      processMessage env t0 t1 t2 t3 db message chat_id? temperature
          system_prompt user_id = (.failure c? e, db') →
      (c? = none ↔ chat_id? = none ∧ env.createOk = false)) ∧
    (∀ cid e db',
      processMessage env t0 t1 t2 t3 db message chat_id? temperature
          system_prompt user_id = (.failure (some cid) e, db') →
      env.saveUserOk = true →
      MsgRow.mk db.nextMsgId cid "user" message t1 ∈ db'.messages) := by
  refine ⟨?_, ?_, ?_⟩
  · intro cid m db' h
    unfold processMessage at h
    cases chat_id? with
    | some c =>
      cases hsu : env.saveUserOk <;> rw [hsu] at h <;>
        simp only [saveMessage, saveMessageTx, createChat, createChatTx] at h
      · simp at h
      · simp only [if_true] at h
        cases hcx : env.ctxOk <;> rw [hcx] at h
        · simp at h
        · simp only [if_true] at h
          split at h
          · simp at h
          · cases hsa : env.saveAssistantOk <;> rw [hsa] at h
            · simp at h
            · simp at h
              obtain ⟨⟨hcid, hm⟩, hdb⟩ := h
              subst hcid
              subst hdb
              subst hm
              simp
    | none =>
      cases hcr : env.createOk <;> rw [hcr] at h <;>
        simp only [createChat, createChatTx] at h
      · simp at h
      · simp only [if_true] at h
        cases hsu : env.saveUserOk <;> rw [hsu] at h <;>
          simp only [saveMessage, saveMessageTx] at h
        · simp at h
        · simp only [if_true] at h
          cases hcx : env.ctxOk <;> rw [hcx] at h
          · simp at h
          · simp only [if_true] at h
            split at h
            · simp at h
            · cases hsa : env.saveAssistantOk <;> rw [hsa] at h
              · simp at h
              · simp at h
                obtain ⟨⟨hcid, hm⟩, hdb⟩ := h
                subst hcid
                subst hdb
                subst hm
                simp
  · intro c? e db' h
    unfold processMessage at h
    cases chat_id? with
    | some c =>
      cases hsu : env.saveUserOk <;> rw [hsu] at h <;>
        simp only [saveMessage, saveMessageTx, createChat, createChatTx] at h
      · simp at h
        simp [← h.1.1]
      · simp only [if_true] at h
        cases hcx : env.ctxOk <;> rw [hcx] at h
        · simp at h
          simp [← h.1.1]
        · simp only [if_true] at h
          split at h
          · simp at h
            simp [← h.1.1]
          · cases hsa : env.saveAssistantOk <;> rw [hsa] at h
            · simp at h
              simp [← h.1.1]
            · simp at h
    | none =>
      cases hcr : env.createOk <;> rw [hcr] at h <;>
        simp only [createChat, createChatTx] at h
      · simp at h
        simp [← h.1.1, hcr]
      · simp only [if_true] at h
        cases hsu : env.saveUserOk <;> rw [hsu] at h <;>
          simp only [saveMessage, saveMessageTx] at h
        · simp at h
          simp [← h.1.1, hcr]
        · simp only [if_true] at h
          cases hcx : env.ctxOk <;> rw [hcx] at h
          · simp at h
            simp [← h.1.1, hcr]
          · simp only [if_true] at h
            split at h
            · simp at h
              simp [← h.1.1, hcr]
            · cases hsa : env.saveAssistantOk <;> rw [hsa] at h
              · simp at h
                simp [← h.1.1, hcr]
              · simp at h
  · intro cid e db' h hsu
    unfold processMessage at h
    cases chat_id? with
    | some c =>
      rw [hsu] at h
      simp only [saveMessage, saveMessageTx, createChat, createChatTx, if_true] at h
      cases hcx : env.ctxOk <;> rw [hcx] at h
      · simp at h
        obtain ⟨⟨hcid, -⟩, hdb⟩ := h
        subst hcid
        subst hdb
        simp
      · simp only [if_true] at h
        split at h
        · simp at h
          obtain ⟨⟨hcid, -⟩, hdb⟩ := h
          subst hcid
          subst hdb
          simp
        · cases hsa : env.saveAssistantOk <;> rw [hsa] at h
          · simp at h
            obtain ⟨⟨hcid, -⟩, hdb⟩ := h
            subst hcid
            subst hdb
            simp
          · simp at h
    | none =>
      cases hcr : env.createOk <;> rw [hcr] at h <;>
        simp only [createChat, createChatTx] at h
      · simp at h
      · simp only [if_true] at h
        rw [hsu] at h
        simp only [saveMessage, saveMessageTx, if_true] at h
        cases hcx : env.ctxOk <;> rw [hcx] at h
        · simp at h
          obtain ⟨⟨hcid, -⟩, hdb⟩ := h
          subst hcid
          subst hdb
          simp
        · simp only [if_true] at h
          split at h
          · simp at h
            obtain ⟨⟨hcid, -⟩, hdb⟩ := h
            subst hcid
            subst hdb
            simp
          · cases hsa : env.saveAssistantOk <;> rw [hsa] at h
            · simp at h
              obtain ⟨⟨hcid, -⟩, hdb⟩ := h
              subst hcid
              subst hdb
              simp
            · simp at h

/-- C1 witness: a run whose model call always times out still returns a
structured failure carrying the created conversation id, with the user
message persisted. -/
theorem processMessage_structured_outcome_witness :
    MsgRow.mk 1 1 "user" "Hello" 2 ∈
      (processMessage
        (Env.mk true true true (fun _ _ _ => .transientErr "timeout") true)
        1 2 3 4 (DB.mk [] [] 1 1) "Hello" none 1 none none).2.messages :=
  (processMessage_structured_outcome
      (Env.mk true true true (fun _ _ _ => .transientErr "timeout") true)
      1 2 3 4 (DB.mk [] [] 1 1) "Hello" none 1 none none).2.2
    1 (errString (.retryExhausted "timeout"))
    (processMessage
        (Env.mk true true true (fun _ _ _ => .transientErr "timeout") true)
        1 2 3 4 (DB.mk [] [] 1 1) "Hello" none 1 none none).2
    rfl rfl

